import Mathlib

/-!
Verification of the payment-service core of `services-prototype`.

The definitions below are a shallow embedding of
`src/services/payment/core/LedgerManager.ts`,
`src/services/payment/core/PaymentService.ts` (the main service file) and
the SQL constraints of `src/services/payment/database/schema.sql`.

Modelling decisions, recorded once here:

* Monetary amounts and balances are integers counting units of 10^-4 of
  the currency: the schema stores `DECIMAL(19,4)` fixed-point and the
  core only adds, subtracts and compares amounts, so the scaling is an
  exact isomorphism (e.g. 49.99 USD is 499900 units).
* The persistent store is modelled relationally: `accounts` and
  `transactions` are lists of rows, an SQL `UPDATE ... WHERE` maps over the
  matching rows, and the schema's CHECK constraints
  (`positive_balance`, `positive_amount`, `different_parties`) make the
  offending statement fail, exactly as a PostgreSQL store conforming to
  `schema.sql` behaves.  Statements are individually atomic; there is no
  multi-statement transaction, mirroring the TS code which issues
  independent queries.
* `generateId` (`Date.now()` + randomness) is modelled by the `nextId`
  counter of the state — the unique-id collaborator of the design.
  Timestamp bookkeeping (`createdAt`, `updatedAt`, `completedAt`) is
  omitted: no operation of the core ever reads those columns back.
* JavaScript truthiness is preserved where the TS code branches on it:
  an absent or empty string is falsy (`if (idempotencyKey)`,
  `if (requiresProcessing && paymentMethod)`,
  `if (originalTx.processorReference)`), and `amount || originalTx.amount`
  treats `0` as absent.
* The external payment processor is called at most once per service call,
  so its behaviour is passed in as the outcome (`ChargeResult` /
  `RefundResult`) that the single call would produce; the service code is
  polymorphic over `IPaymentProcessor` so this is exactly its interface.
* Thrown JS errors are modelled by `Except String`; each ledger operation
  returns its (possibly partially mutated) state alongside the outcome,
  because the independent queries it already issued are not rolled back
  when a later one throws.
-/

/-- Currencies of `core/types.ts` (`type Currency`). -/
inductive Currency where
  | USD | EUR | GBP | CAD | AUD
  deriving DecidableEq, Repr

/-- Transaction statuses of `core/types.ts` (`type TransactionStatus`). -/
inductive TransactionStatus where
  | pending | processing | completed | failed | refunded | cancelled
  deriving DecidableEq, Repr

/-- Constant `SELF_ENTITY` of `core/types.ts`: the reserved platform identifier. -/
def SELF_ENTITY : String := "__SELF__"

/-- The metadata fields the core reads or writes
(`TransactionMetadata` plus the keys added by the service:
`idempotencyKey`, `reason`, `originalTransactionId`). -/
structure TransactionMetadata where
  description : Option String := none
  reason : Option String := none
  originalTransactionId : Option Nat := none
  idempotencyKey : Option String := none
  deriving DecidableEq, Repr

/-- A row of the `transactions` table / the `Transaction` interface. -/
structure Transaction where
  id : Nat
  payerId : String
  payeeId : String
  amount : ℤ
  currency : Currency
  status : TransactionStatus
  paymentMethod : Option String := none
  processorReference : Option String := none
  metadata : TransactionMetadata := {}
  deriving DecidableEq, Repr

/-- A row of the `accounts` table; only the columns the core ever reads
back (`owner_id`, `balance`, `currency`). -/
structure Account where
  ownerId : String
  balance : ℤ
  currency : Currency
  deriving DecidableEq, Repr

/-- The persistent state owned by the `LedgerManager`, plus the id
counter of the clock/id collaborator. -/
structure LedgerState where
  accounts : List Account := []
  transactions : List Transaction := []
  nextId : Nat := 0
  deriving DecidableEq, Repr

/-- Ids in the store are below the id counter, so freshly generated ids
never collide (the uniqueness assumption of `generateId`). -/
def LedgerState.WF (st : LedgerState) : Prop :=
  ∀ t ∈ st.transactions, t.id < st.nextId

instance (st : LedgerState) : Decidable st.WF := by
  unfold LedgerState.WF; infer_instance

/-- The fields of `PaymentServiceConfig` that `processTransaction` /
`processRefund` consult. -/
structure PaymentServiceConfig where
  defaultCurrency : Currency
  minTransactionAmount : Option ℤ := none
  maxTransactionAmount : Option ℤ := none
  refundsEnabled : Bool := false

/-- Structure `ProcessTransactionRequest` of `core/types.ts`. -/
structure ProcessTransactionRequest where
  payerId : String
  payeeId : String
  amount : ℤ
  currency : Option Currency := none
  paymentMethod : Option String := none
  metadata : TransactionMetadata := {}
  idempotencyKey : Option String := none

/-- Structure `RefundRequest` of `core/types.ts`. -/
structure RefundRequest where
  transactionId : Nat
  amount : Option ℤ := none
  reason : Option String := none

/-- The `{code, message}` error payload of `TransactionResult`. -/
structure ErrorInfo where
  code : String
  message : String
  deriving DecidableEq, Repr

/-- Structure `TransactionResult` of `core/types.ts`. -/
structure TransactionResult where
  success : Bool
  transaction : Option Transaction := none
  error : Option ErrorInfo := none
  deriving DecidableEq, Repr

/-- Outcome of `IPaymentProcessor.processPayment`. -/
structure ChargeResult where
  success : Bool
  reference : Option String := none
  error : Option String := none

/-- Outcome of `IPaymentProcessor.processRefund`. -/
structure RefundResult where
  success : Bool
  error : Option String := none

/-- JS truthiness of an optional string (`undefined` and `""` are falsy). -/
def strTruthy : Option String → Bool
  | none => false
  | some s => s ≠ ""

/-- JS truthiness of an optional number (`undefined` and `0` are falsy),
as used on `minTransactionAmount` / `maxTransactionAmount`. -/
def numTruthy : Option ℤ → Option ℤ
  | none => none
  | some q => if q = 0 then none else some q

/-! ### LedgerManager (`core/LedgerManager.ts`) against `schema.sql` -/

/-- Query `SELECT * FROM transactions WHERE id = $1`, first row
(`getTransaction`). -/
def getTransaction (st : LedgerState) (transactionId : Nat) : Option Transaction :=
  st.transactions.find? (fun t => t.id == transactionId)

/-- Query `SELECT * FROM transactions WHERE metadata->>'idempotencyKey' = $1`,
first row (`findByIdempotencyKey`). -/
def findByIdempotencyKey (st : LedgerState) (key : String) : Option Transaction :=
  st.transactions.find? (fun t => t.metadata.idempotencyKey == some key)

/-- The data argument of `LedgerManager.createTransaction`. -/
structure NewTransactionData where
  payerId : String
  payeeId : String
  amount : ℤ
  currency : Currency
  status : TransactionStatus
  paymentMethod : Option String := none
  metadata : TransactionMetadata := {}

/-- Operation `createTransaction`: generate an id, `INSERT INTO transactions ...`.
The insert fails when a CHECK constraint of `schema.sql`
(`positive_amount`, `different_parties`) rejects the row. -/
def createTransaction (st : LedgerState) (data : NewTransactionData) :
    Except String Transaction × LedgerState :=
  let tx : Transaction :=
    { id := st.nextId, payerId := data.payerId, payeeId := data.payeeId,
      amount := data.amount, currency := data.currency, status := data.status,
      paymentMethod := data.paymentMethod, processorReference := none,
      metadata := data.metadata }
  if tx.amount ≤ 0 then
    (.error "violates check constraint positive_amount", st)
  else if tx.payerId = tx.payeeId then
    (.error "violates check constraint different_parties", st)
  else
    (.ok tx, { st with transactions := st.transactions ++ [tx], nextId := st.nextId + 1 })

/-- The `Partial<Transaction>` updates the service actually passes to
`updateTransaction`: a status and/or a processor reference.  An outer
`some` means the key is present in the JS object. -/
structure TransactionUpdates where
  status : Option TransactionStatus := none
  processorReference : Option (Option String) := none

/-- The merge `{ ...transaction, ...updates }` of `updateTransaction`. -/
def applyUpdates (t : Transaction) (u : TransactionUpdates) : Transaction :=
  { t with
    status := u.status.getD t.status
    processorReference := u.processorReference.getD t.processorReference }

/-- Operation `updateTransaction`: read the row, merge the updates in memory, then
`UPDATE transactions SET status, processor_reference, metadata ... WHERE id`.
Throws `Transaction not found` when the id is absent; returns the merged
object. -/
def updateTransaction (st : LedgerState) (transactionId : Nat)
    (updates : TransactionUpdates) : Except String Transaction × LedgerState :=
  match getTransaction st transactionId with
  | none => (.error "Transaction not found", st)
  | some transaction =>
    let updated := applyUpdates transaction updates
    (.ok updated,
      { st with transactions := st.transactions.map (fun t =>
          if t.id == transactionId then
            { t with status := updated.status,
                     processorReference := updated.processorReference,
                     metadata := updated.metadata }
          else t) })

/-- Operation `updateTransactionStatus`: delegate to `updateTransaction` with just a
status (the `completedAt` timestamp it also sets is not modelled, nothing
reads it). -/
def updateTransactionStatus (st : LedgerState) (transactionId : Nat)
    (status : TransactionStatus) : Except String Transaction × LedgerState :=
  updateTransaction st transactionId { status := some status }

/-- Operation `ensureAccount`: skip `SELF`, else `SELECT` and `INSERT` a zero-balance
row when absent (lazy account creation). -/
def ensureAccount (accounts : List Account) (ownerId : String) (currency : Currency) :
    List Account :=
  if ownerId = SELF_ENTITY then accounts
  else if accounts.any (fun a => a.ownerId == ownerId && a.currency == currency) then accounts
  else accounts ++ [{ ownerId := ownerId, balance := 0, currency := currency }]

/-- Statement `UPDATE accounts SET balance = balance + $delta WHERE owner_id AND
currency`.  The statement fails atomically when the `positive_balance`
CHECK constraint of `schema.sql` would be violated on a matched row. -/
def sqlShiftBalance (accounts : List Account) (ownerId : String) (currency : Currency)
    (delta : ℤ) : Except String (List Account) :=
  if accounts.any (fun a =>
      a.ownerId == ownerId && a.currency == currency && decide (a.balance + delta < 0)) then
    .error "violates check constraint positive_balance"
  else
    .ok (accounts.map (fun a =>
      if a.ownerId == ownerId && a.currency == currency then
        { a with balance := a.balance + delta }
      else a))

/-- Operation `updateBalances`: ensure both accounts, deduct from a non-`SELF`
payer, credit a non-`SELF` payee.  The three statements are independent:
account creation persists even when the debit fails, and the debit
persists state reached so far when the credit fails. -/
def updateBalances (st : LedgerState) (payerId payeeId : String) (amount : ℤ)
    (currency : Currency) : Except String Unit × LedgerState :=
  let acc0 := ensureAccount (ensureAccount st.accounts payerId currency) payeeId currency
  match (if payerId ≠ SELF_ENTITY then sqlShiftBalance acc0 payerId currency (-amount)
         else .ok acc0 : Except String (List Account)) with
  | .error e => (.error e, { st with accounts := acc0 })
  | .ok acc1 =>
    match (if payeeId ≠ SELF_ENTITY then sqlShiftBalance acc1 payeeId currency amount
           else .ok acc1 : Except String (List Account)) with
    | .error e => (.error e, { st with accounts := acc1 })
    | .ok acc2 => (.ok (), { st with accounts := acc2 })

/-- The `balance` column read back for an owner in a currency (`getBalance`
selects the account row; `none` when no account exists). -/
def accountBalance (st : LedgerState) (ownerId : String) (currency : Currency) : Option ℤ :=
  (st.accounts.find? (fun a => a.ownerId == ownerId && a.currency == currency)).map
    (fun a => a.balance)

/-! ### PaymentService (the service file, `src/unnamed/part_003`) -/

/-- Bound checks of `validateTransaction` (lines 286-308): the checks in source order,
JS truthiness on the optional min/max config values. -/
def minViolation (cfg : PaymentServiceConfig) (amount : ℤ) : Option ℤ :=
  match numTruthy cfg.minTransactionAmount with
  | some m => if amount < m then some m else none
  | none => none

/-- The `maxTransactionAmount` counterpart of `minViolation`. -/
def maxViolation (cfg : PaymentServiceConfig) (amount : ℤ) : Option ℤ :=
  match numTruthy cfg.maxTransactionAmount with
  | some m => if m < amount then some m else none
  | none => none

/-- Operation `validateTransaction`: throws (models `throw new Error(...)`) on the
first violated rule, in source order. -/
def validateTransaction (cfg : PaymentServiceConfig)
    (request : ProcessTransactionRequest) : Except String Unit :=
  if request.amount ≤ 0 then
    .error "Transaction amount must be positive"
  else match minViolation cfg request.amount with
  | some m => .error ("Transaction amount below minimum: " ++ toString m)
  | none =>
    match maxViolation cfg request.amount with
    | some m => .error ("Transaction amount exceeds maximum: " ++ toString m)
    | none =>
      if request.payerId = request.payeeId then
        .error "Payer and payee cannot be the same"
      else if request.payerId = "" ∨ request.payeeId = "" then
        .error "Payer and payee are required"
      else .ok ()

/-- Policy `requiresPaymentProcessing` (lines 313-326): payouts from `SELF` need
no external rail, everything else does. -/
def requiresPaymentProcessing (payerId payeeId : String) : Bool :=
  if payerId = SELF_ENTITY then false
  else if payeeId = SELF_ENTITY then true
  else true

/-- The idempotency short-circuit (lines 64-70): only a truthy
(non-empty) key triggers the ledger lookup. -/
def duplicateLookup (st : LedgerState) (request : ProcessTransactionRequest) :
    Option Transaction :=
  match request.idempotencyKey with
  | some key => if key = "" then none else findByIdempotencyKey st key
  | none => none

/-- The catch-all of `processTransaction` (lines 136-145): any thrown
error becomes a `TRANSACTION_ERROR` failure result. -/
def txError (msg : String) : TransactionResult :=
  { success := false, error := some { code := "TRANSACTION_ERROR", message := msg } }

/-- Lines 123-135 of `processTransaction`: apply `updateBalances`, mark
the transaction `completed`, return success.  The caller's `payerId`,
`payeeId`, `amount` come from the request, the currency from the created
transaction, exactly as in the source. -/
def settleTransaction (st : LedgerState) (payerId payeeId : String) (amount : ℤ)
    (transactionId : Nat) (currency : Currency) : TransactionResult × LedgerState :=
  match updateBalances st payerId payeeId amount currency with
  | (.error msg, st1) => (txError msg, st1)
  | (.ok (), st1) =>
    match updateTransactionStatus st1 transactionId .completed with
    | (.error msg, st2) => (txError msg, st2)
    | (.ok completedTransaction, st2) =>
      ({ success := true, transaction := some completedTransaction }, st2)

/-- Operation `processTransaction` (lines 58-146).  `charge` is the outcome the
single `processor.processPayment` call would return. -/
def processTransaction (cfg : PaymentServiceConfig) (charge : ChargeResult)
    (st : LedgerState) (request : ProcessTransactionRequest) :
    TransactionResult × LedgerState :=
  match validateTransaction cfg request with
  | .error msg => (txError msg, st)
  | .ok () =>
    match duplicateLookup st request with
    | some existing => ({ success := true, transaction := some existing }, st)
    | none =>
      match createTransaction st
          { payerId := request.payerId, payeeId := request.payeeId,
            amount := request.amount,
            currency := request.currency.getD cfg.defaultCurrency,
            status := .pending, paymentMethod := request.paymentMethod,
            metadata := { request.metadata with idempotencyKey := request.idempotencyKey } } with
      | (.error msg, st1) => (txError msg, st1)
      | (.ok transaction, st1) =>
        if requiresPaymentProcessing request.payerId request.payeeId
            && strTruthy request.paymentMethod then
          match updateTransactionStatus st1 transaction.id .processing with
          | (.error msg, st2) => (txError msg, st2)
          | (.ok _, st2) =>
            if !charge.success then
              match updateTransactionStatus st2 transaction.id .failed with
              | (.error msg, st3) => (txError msg, st3)
              | (.ok _, st3) =>
                ({ success := false,
                   error := some { code := "PAYMENT_FAILED",
                                   message := charge.error.getD "Payment processing failed" } },
                 st3)
            else
              match updateTransaction st2 transaction.id
                  { processorReference := some charge.reference } with
              | (.error msg, st3) => (txError msg, st3)
              | (.ok _, st3) =>
                settleTransaction st3 request.payerId request.payeeId request.amount
                  transaction.id transaction.currency
        else
          settleTransaction st1 request.payerId request.payeeId request.amount
            transaction.id transaction.currency

/-- The catch-all of `processRefund` (lines 243-252). -/
def refundError (msg : String) : TransactionResult :=
  { success := false, error := some { code := "REFUND_ERROR", message := msg } }

/-- The metadata description string written by `processRefund`
(line 197: a template literal over the original transaction id). -/
def refundDescription (transactionId : Nat) : String :=
  "Refund for transaction " ++ toString transactionId

/-- Line 187: `const refundAmount = amount || originalTx.amount` — JS
`||` falls back on `undefined` and on `0`. -/
def refundAmount (requested : Option ℤ) (originalAmount : ℤ) : ℤ :=
  match requested with
  | some a => if a = 0 then originalAmount else a
  | none => originalAmount

/-- Operation `processRefund` (lines 151-253).  `refundOutcome` is the outcome the
single `processor.processRefund` call would return.  The refund amount
defaults to the original's via JS `amount || originalTx.amount`
(`0` is falsy).  The processor is consulted only when the original
carries a truthy `processorReference`. -/
def processRefund (cfg : PaymentServiceConfig) (refundOutcome : RefundResult)
    (st : LedgerState) (request : RefundRequest) : TransactionResult × LedgerState :=
  if !cfg.refundsEnabled then
    ({ success := false,
       error := some { code := "REFUNDS_DISABLED", message := "Refunds are not enabled" } }, st)
  else
    match getTransaction st request.transactionId with
    | none =>
      ({ success := false,
         error := some { code := "TRANSACTION_NOT_FOUND",
                         message := "Original transaction not found" } }, st)
    | some originalTx =>
      if originalTx.status ≠ .completed then
        ({ success := false,
           error := some { code := "INVALID_TRANSACTION_STATUS",
                           message := "Can only refund completed transactions" } }, st)
      else
        match createTransaction st
            { payerId := originalTx.payeeId, payeeId := originalTx.payerId,
              amount := refundAmount request.amount originalTx.amount,
              currency := originalTx.currency,
              status := .processing,
              metadata := { description := some (refundDescription request.transactionId),
                            reason := request.reason,
                            originalTransactionId := some request.transactionId } } with
        | (.error msg, st1) => (refundError msg, st1)
        | (.ok refundTransaction, st1) =>
          if strTruthy originalTx.processorReference && !refundOutcome.success then
            match updateTransactionStatus st1 refundTransaction.id .failed with
            | (.error msg, st2) => (refundError msg, st2)
            | (.ok _, st2) =>
              ({ success := false,
                 error := some { code := "REFUND_FAILED",
                                 message := refundOutcome.error.getD
                                   "Refund processing failed" } }, st2)
          else
            match updateBalances st1 refundTransaction.payerId refundTransaction.payeeId
                refundTransaction.amount originalTx.currency with
            | (.error msg, st2) => (refundError msg, st2)
            | (.ok (), st2) =>
              match updateTransactionStatus st2 originalTx.id .refunded with
              | (.error msg, st3) => (refundError msg, st3)
              | (.ok _, st3) =>
                match updateTransactionStatus st3 refundTransaction.id .completed with
                | (.error msg, st4) => (refundError msg, st4)
                | (.ok completedRefund, st4) =>
                  ({ success := true, transaction := some completedRefund }, st4)

/-! ### Concrete fixtures used by the scenario theorems -/

/-- A configuration with refunds enabled and no min/max bounds
(the defaults of the cloning guide's example configuration). -/
def demoConfig : PaymentServiceConfig := { defaultCurrency := .USD, refundsEnabled := true }

/-- §8 scenario state: `user_2` holds 10.00 USD, `user_3` holds 5.00 USD
(amounts in units of 10^-4). -/
def lowBalanceState : LedgerState :=
  { accounts := [{ ownerId := "user_2", balance := 100000, currency := .USD },
                 { ownerId := "user_3", balance := 50000, currency := .USD }] }

/-- §8 scenario request: `user_2` transfers 25.00 to `user_3`, no
external payment method. -/
def overdraftRequest : ProcessTransactionRequest :=
  { payerId := "user_2", payeeId := "user_3", amount := 250000 }

/-- State for the payment-rail scenarios: `user_4` holds 5.00 USD. -/
def railState : LedgerState :=
  { accounts := [{ ownerId := "user_4", balance := 50000, currency := .USD },
                 { ownerId := "user_5", balance := 10000, currency := .USD }] }

/-- Request: `user_4` pays `user_5` 20.00 by card: the external charge succeeds,
but the internal balance shift cannot. -/
def railRequest : ProcessTransactionRequest :=
  { payerId := "user_4", payeeId := "user_5", amount := 200000,
    paymentMethod := some "credit_card" }

/-- §8 scenario state: `user_1` holds 0. -/
def zeroBalanceState : LedgerState :=
  { accounts := [{ ownerId := "user_1", balance := 0, currency := .USD }] }

/-- §8 scenario request: `user_1` pays `SELF` 49.99 USD by card. -/
def paySelfRequest : ProcessTransactionRequest :=
  { payerId := "user_1", payeeId := SELF_ENTITY, amount := 499900,
    paymentMethod := some "credit_card" }

/-- Two funded peer accounts for the transfer/refund scenarios. -/
def twoUserState : LedgerState :=
  { accounts := [{ ownerId := "alice", balance := 1000000, currency := .USD },
                 { ownerId := "bob", balance := 500000, currency := .USD }] }

/-- A plain internal transfer of 10.00 from `alice` to `bob`. -/
def transferRequest : ProcessTransactionRequest :=
  { payerId := "alice", payeeId := "bob", amount := 100000 }

/-- The same transfer tagged with the (empty-string) idempotency key. -/
def emptyKeyRequest : ProcessTransactionRequest :=
  { payerId := "alice", payeeId := "bob", amount := 100000, idempotencyKey := some "" }

/-- A state already holding a `failed` transaction tagged with
idempotency key `k1`. -/
def storedKeyState : LedgerState :=
  { transactions := [{ id := 7, payerId := "x", payeeId := "y", amount := 30000,
                       currency := .USD, status := .failed,
                       metadata := { idempotencyKey := some "k1" } }],
    nextId := 8 }


/-! ### Claim theorems -/

/-- C1: the spec requires a transfer exceeding a non-`SELF` payer's
balance to be rejected with `InsufficientFunds`, the transaction to end
`failed`, and balances to stay unchanged.  On the code, run at the §8
scenario (payer balance 10.00, transfer 25.00 to `user_3`): the only
rejection comes from the store's `positive_balance` CHECK constraint; the
service's catch-all surfaces it as `TRANSACTION_ERROR` (no
`InsufficientFunds` error exists anywhere in the code) and never
transitions the created transaction, which is left in status `pending`,
not `failed`.  Balances are indeed unchanged. -/
theorem C1_insufficient_funds_run :
    (processTransaction demoConfig { success := true } lowBalanceState
        overdraftRequest).1.success = false ∧
    (processTransaction demoConfig { success := true } lowBalanceState
        overdraftRequest).1.error =
      some { code := "TRANSACTION_ERROR",
             message := "violates check constraint positive_balance" } ∧
    (∀ e, (processTransaction demoConfig { success := true } lowBalanceState
        overdraftRequest).1.error = some e → e.code ≠ "InsufficientFunds") ∧
    (getTransaction (processTransaction demoConfig { success := true } lowBalanceState
        overdraftRequest).2 0).map Transaction.status = some .pending ∧
    (getTransaction (processTransaction demoConfig { success := true } lowBalanceState
        overdraftRequest).2 0).map Transaction.status ≠ some .failed ∧
    accountBalance (processTransaction demoConfig { success := true } lowBalanceState
        overdraftRequest).2 "user_2" .USD = some 100000 ∧
    accountBalance (processTransaction demoConfig { success := true } lowBalanceState
        overdraftRequest).2 "user_3" .USD = some 50000 := by
  decide

/-- C2: the spec requires that when a Ledger operation fails mid-flow the
transaction is transitioned to `failed` before the error is returned.  On
the code, run a card payment (`user_4`, balance 5.00, pays `user_5`
20.00) whose external charge succeeds but whose balance shift fails:
`processTransaction` returns a `TRANSACTION_ERROR` failure while the
stored transaction is left in status `processing` — neither `completed`
nor `failed`. -/
theorem C2_ledger_failure_leaves_processing :
    (processTransaction demoConfig { success := true, reference := some "ch_2" }
        railState railRequest).1.success = false ∧
    ((processTransaction demoConfig { success := true, reference := some "ch_2" }
        railState railRequest).1.error.map ErrorInfo.code) = some "TRANSACTION_ERROR" ∧
    (getTransaction (processTransaction demoConfig { success := true, reference := some "ch_2" }
        railState railRequest).2 0).map Transaction.status = some .processing ∧
    (getTransaction (processTransaction demoConfig { success := true, reference := some "ch_2" }
        railState railRequest).2 0).map Transaction.status ≠ some .completed ∧
    (getTransaction (processTransaction demoConfig { success := true, reference := some "ch_2" }
        railState railRequest).2 0).map Transaction.status ≠ some .failed := by
  decide

/-- C5: the spec's §8 scenario says a zero-balance payer paying `SELF`
49.99 via an always-succeeding processor ends `completed` with the
payer's balance unchanged.  On the code, `updateBalances` decrements
every non-`SELF` payer even when the money came from the external rail,
so the shift violates the `positive_balance` constraint: the charge
succeeds and `processorReference` is attached, but the call returns
`TRANSACTION_ERROR` and the transaction is left in `processing`, never
`completed` (the payer's balance does remain 0 only because the store
rejected the debit). -/
theorem C5_pay_self_run :
    (processTransaction demoConfig { success := true, reference := some "ch_ref" }
        zeroBalanceState paySelfRequest).1.success = false ∧
    ((processTransaction demoConfig { success := true, reference := some "ch_ref" }
        zeroBalanceState paySelfRequest).1.error.map ErrorInfo.code) =
      some "TRANSACTION_ERROR" ∧
    (getTransaction (processTransaction demoConfig { success := true, reference := some "ch_ref" }
        zeroBalanceState paySelfRequest).2 0).map Transaction.status = some .processing ∧
    (getTransaction (processTransaction demoConfig { success := true, reference := some "ch_ref" }
        zeroBalanceState paySelfRequest).2 0).map Transaction.status ≠ some .completed ∧
    ((getTransaction (processTransaction demoConfig { success := true, reference := some "ch_ref" }
        zeroBalanceState paySelfRequest).2 0).bind Transaction.processorReference) =
      some "ch_ref" ∧
    accountBalance (processTransaction demoConfig { success := true, reference := some "ch_ref" }
        zeroBalanceState paySelfRequest).2 "user_1" .USD = some 0 := by
  decide

/-- C9: the spec says a refund amount exceeding the original is not
accepted.  On the code there is no such check: after `alice` pays `bob`
10.00, a refund request of 25.00 against that transaction (1) is accepted
with success, (2) creates a `completed` refund transaction of 25.00
against an original of 10.00, and (3) moves 25.00 back, leaving `alice`
with 115.00 and `bob` with 35.00 — more than a restoration.  The
defaulting half of the claim does hold: a refund request without an
amount refunds exactly the original 10.00. -/
theorem C9_excess_refund_accepted :
    (processTransaction demoConfig { success := true } twoUserState
        transferRequest).1.success = true ∧
    (processRefund demoConfig { success := true }
        (processTransaction demoConfig { success := true } twoUserState transferRequest).2
        { transactionId := 0, amount := some 250000 }).1.success = true ∧
    (getTransaction (processRefund demoConfig { success := true }
        (processTransaction demoConfig { success := true } twoUserState transferRequest).2
        { transactionId := 0, amount := some 250000 }).2 0).map Transaction.amount =
      some 100000 ∧
    (getTransaction (processRefund demoConfig { success := true }
        (processTransaction demoConfig { success := true } twoUserState transferRequest).2
        { transactionId := 0, amount := some 250000 }).2 1).map Transaction.amount =
      some 250000 ∧
    (getTransaction (processRefund demoConfig { success := true }
        (processTransaction demoConfig { success := true } twoUserState transferRequest).2
        { transactionId := 0, amount := some 250000 }).2 1).map Transaction.status =
      some .completed ∧
    (100000 : ℤ) < 250000 ∧
    accountBalance (processRefund demoConfig { success := true }
        (processTransaction demoConfig { success := true } twoUserState transferRequest).2
        { transactionId := 0, amount := some 250000 }).2 "alice" .USD = some 1150000 ∧
    accountBalance (processRefund demoConfig { success := true }
        (processTransaction demoConfig { success := true } twoUserState transferRequest).2
        { transactionId := 0, amount := some 250000 }).2 "bob" .USD = some 350000 ∧
    (processRefund demoConfig { success := true }
        (processTransaction demoConfig { success := true } twoUserState transferRequest).2
        { transactionId := 0 }).1.transaction.map Transaction.amount = some 100000 := by
  decide

/-- C3 counterexample: the claim quantifies over every `idempotencyKey`,
but the code's `if (idempotencyKey)` treats the empty-string key as
absent (JS truthiness).  Calling `processTransaction` twice with
`idempotencyKey = ""` yields two success results referencing two
*different* transaction ids, and the second call creates a second row. -/
theorem C3_empty_key_counterexample :
    (processTransaction demoConfig { success := true } twoUserState
        emptyKeyRequest).1.success = true ∧
    (processTransaction demoConfig { success := true }
        (processTransaction demoConfig { success := true } twoUserState emptyKeyRequest).2
        emptyKeyRequest).1.success = true ∧
    (processTransaction demoConfig { success := true } twoUserState
        emptyKeyRequest).1.transaction.map Transaction.id = some 0 ∧
    (processTransaction demoConfig { success := true }
        (processTransaction demoConfig { success := true } twoUserState emptyKeyRequest).2
        emptyKeyRequest).1.transaction.map Transaction.id = some 1 ∧
    (processTransaction demoConfig { success := true }
        (processTransaction demoConfig { success := true } twoUserState emptyKeyRequest).2
        emptyKeyRequest).2.transactions.length = 2 := by
  decide

/-- C4 counterexample: after `alice` pays `bob` 10.00 and the transaction
is refunded in full, the refund transaction references the original
(`metadata.originalTransactionId = 0`), but the original's metadata is
left completely empty — `processRefund` only flips its status to
`refunded` and never writes a link to the refund — so the two records do
not reference *each other* as the claim states. -/
theorem C4_original_lacks_refund_reference :
    (processRefund demoConfig { success := true }
        (processTransaction demoConfig { success := true } twoUserState transferRequest).2
        { transactionId := 0 }).1.success = true ∧
    (getTransaction (processRefund demoConfig { success := true }
        (processTransaction demoConfig { success := true } twoUserState transferRequest).2
        { transactionId := 0 }).2 1).map
      (fun t => t.metadata.originalTransactionId) = some (some 0) ∧
    (getTransaction (processRefund demoConfig { success := true }
        (processTransaction demoConfig { success := true } twoUserState transferRequest).2
        { transactionId := 0 }).2 0).map
      (fun t => t.metadata.originalTransactionId) = some none ∧
    (getTransaction (processRefund demoConfig { success := true }
        (processTransaction demoConfig { success := true } twoUserState transferRequest).2
        { transactionId := 0 }).2 0).map Transaction.metadata = some {} := by
  decide

/-- C7 counterexample: the claim says a validation violation yields a
`ValidationError` failure result.  On the code every thrown validation
error is caught by the catch-all and surfaced with error code
`TRANSACTION_ERROR` (here: `amount = 0`); no result ever carries a
distinct validation code.  The no-side-effect half does hold — the state
is returned untouched. -/
theorem C7_validation_error_code_counterexample :
    (processTransaction demoConfig { success := true } twoUserState
        { payerId := "p", payeeId := "q", amount := 0 }).1 =
      { success := false,
        error := some { code := "TRANSACTION_ERROR",
                        message := "Transaction amount must be positive" } } ∧
    "TRANSACTION_ERROR" ≠ "ValidationError" ∧
    (processTransaction demoConfig { success := true } twoUserState
        { payerId := "p", payeeId := "q", amount := 0 }).2 = twoUserState := by
  decide

/-- C10 counterexample: the claim says *every* call whose
`idempotencyKey` matches a stored transaction returns success with the
stored transaction.  But `validateTransaction` runs before the
idempotency lookup: a request with `amount = 0` carrying the stored key
`k1` is rejected (`TRANSACTION_ERROR`), not replayed. -/
theorem C10_validation_precedes_replay_counterexample :
    (findByIdempotencyKey storedKeyState "k1").isSome = true ∧
    (processTransaction demoConfig { success := true } storedKeyState
        { payerId := "p", payeeId := "q", amount := 0,
          idempotencyKey := some "k1" }).1.success = false := by
  decide

/-! ### Helper lemmas about the embedded operations -/

/-- Looking up a freshly appended transaction by its id. -/
theorem find_id_append (l : List Transaction) (tx : Transaction) (n : Nat)
    (hl : ∀ t ∈ l, t.id ≠ n) (htx : tx.id = n) :
    (l ++ [tx]).find? (fun t => t.id == n) = some tx := by
  rw [List.find?_append]
  have h1 : l.find? (fun t => t.id == n) = none := by
    rw [List.find?_eq_none]
    intro t ht
    simpa using hl t ht
  rw [h1]
  simp [List.find?, htx]

/-- An id-targeted row rewrite touches only the freshly appended row. -/
theorem map_update_append (l : List Transaction) (tx : Transaction) (n : Nat)
    (f : Transaction → Transaction) (hl : ∀ t ∈ l, t.id ≠ n) (htx : tx.id = n) :
    (l ++ [tx]).map (fun t => if t.id == n then f t else t) = l ++ [f tx] := by
  rw [List.map_append]
  congr 1
  · induction l with
    | nil => rfl
    | cons a as ih =>
      have ha : a.id ≠ n := hl a (List.mem_cons_self a as)
      simp only [List.map_cons, if_neg (by simpa using ha)]
      rw [ih (fun t ht => hl t (List.mem_cons_of_mem a ht))]
      simp [ha]
  · simp [htx]

/-- Effect of `updateTransaction` on a state whose last row is the (fresh) target:
it returns the merged object and rewrites exactly that row to it. -/
theorem updateTransaction_append (st : LedgerState) (l : List Transaction)
    (tx : Transaction) (u : TransactionUpdates)
    (hst : st.transactions = l ++ [tx]) (hl : ∀ t ∈ l, t.id ≠ tx.id) :
    updateTransaction st tx.id u =
      (.ok (applyUpdates tx u), { st with transactions := l ++ [applyUpdates tx u] }) := by
  unfold updateTransaction getTransaction
  rw [hst, find_id_append l tx tx.id hl rfl]
  simp only
  rw [map_update_append l tx tx.id _ hl rfl]
  rfl

/-- Fact: `updateBalances` never touches the transactions table. -/
theorem updateBalances_transactions (st : LedgerState) (p q : String) (a : ℤ)
    (c : Currency) : (updateBalances st p q a c).2.transactions = st.transactions := by
  simp only [updateBalances]
  split <;> try rfl
  all_goals try (split <;> try rfl)

/-- What passing `validateTransaction` guarantees about the request. -/
theorem validate_ok_fields (cfg : PaymentServiceConfig)
    (req : ProcessTransactionRequest) (h : validateTransaction cfg req = .ok ()) :
    0 < req.amount ∧ req.payerId ≠ req.payeeId ∧ req.payerId ≠ "" ∧ req.payeeId ≠ "" := by
  unfold validateTransaction at h
  by_cases h1 : req.amount ≤ 0
  · simp [h1] at h
  · rw [if_neg h1] at h
    cases hm : minViolation cfg req.amount with
    | some m => rw [hm] at h; simp at h
    | none =>
      rw [hm] at h
      cases hx : maxViolation cfg req.amount with
      | some m => rw [hx] at h; simp at h
      | none =>
        rw [hx] at h
        by_cases h2 : req.payerId = req.payeeId
        · simp [h2] at h
        · rw [if_neg h2] at h
          by_cases h3 : req.payerId = "" ∨ req.payeeId = ""
          · rw [if_pos h3] at h
            simp at h
          · push_neg at h3
            exact ⟨by omega, h2, h3.1, h3.2⟩

/-- A request violating any of the validation rules makes
`validateTransaction` throw. -/
theorem validate_error_of (cfg : PaymentServiceConfig)
    (req : ProcessTransactionRequest)
    (h : req.amount ≤ 0 ∨ minViolation cfg req.amount ≠ none ∨
         maxViolation cfg req.amount ≠ none ∨ req.payerId = req.payeeId ∨
         req.payerId = "" ∨ req.payeeId = "") :
    ∃ msg, validateTransaction cfg req = .error msg := by
  unfold validateTransaction
  by_cases h1 : req.amount ≤ 0
  · exact ⟨_, by rw [if_pos h1]⟩
  · rw [if_neg h1]
    cases hm : minViolation cfg req.amount with
    | some m => exact ⟨_, rfl⟩
    | none =>
      cases hx : maxViolation cfg req.amount with
      | some m => exact ⟨_, rfl⟩
      | none =>
        by_cases h2 : req.payerId = req.payeeId
        · exact ⟨_, by rw [if_pos h2]⟩
        · rw [if_neg h2]
          by_cases h3 : req.payerId = "" ∨ req.payeeId = ""
          · exact ⟨_, by rw [if_pos h3]⟩
          · exfalso
            rcases h with h | h | h | h | h | h
            · exact h1 h
            · exact h hm
            · exact h hx
            · exact h2 h
            · exact h3 (Or.inl h)
            · exact h3 (Or.inr h)

/-- The idempotent-replay behaviour of `processTransaction` (lines
64-70): a validated request whose non-empty key is already stored short-
circuits to the stored transaction and mutates nothing. -/
theorem replay_of_found (cfg : PaymentServiceConfig) (proc : ChargeResult)
    (st : LedgerState) (req : ProcessTransactionRequest) (k : String) (t : Transaction)
    (hval : validateTransaction cfg req = .ok ())
    (hkey : req.idempotencyKey = some k) (hne : k ≠ "")
    (hfound : findByIdempotencyKey st k = some t) :
    processTransaction cfg proc st req =
      ({ success := true, transaction := some t }, st) := by
  simp only [processTransaction, duplicateLookup, hval, hkey, hne, if_false, if_neg, hfound]

/-- C10 (amended): *provided the request passes validation* and carries a
non-empty `idempotencyKey` matching a stored transaction, the call
returns `success := true` with that stored transaction exactly as stored
— regardless of the stored transaction's status (it may be `failed`) and
regardless of whether the request's `amount`/`payerId`/`payeeId` agree
with it (no hypothesis constrains `t`'s fields) — and the state is
returned unchanged: no transaction created, no balance changed.  The
validation proviso is forced by `C10_validation_precedes_replay_counterexample`. -/
theorem C10_replay_returns_stored (cfg : PaymentServiceConfig) (proc : ChargeResult)
    (st : LedgerState) (req : ProcessTransactionRequest) (k : String) (t : Transaction)
    (hval : validateTransaction cfg req = .ok ())
    (hkey : req.idempotencyKey = some k) (hne : k ≠ "")
    (hfound : findByIdempotencyKey st k = some t) :
    processTransaction cfg proc st req =
      ({ success := true, transaction := some t }, st) :=
  replay_of_found cfg proc st req k t hval hkey hne hfound

/-- Witness for `C10_replay_returns_stored`: replaying key `k1` against
`storedKeyState` with a mismatched but valid request returns the stored
`failed` transaction and leaves the state untouched. -/
theorem C10_replay_returns_stored_witness :
    processTransaction demoConfig { success := true } storedKeyState
      { payerId := "p", payeeId := "q", amount := 50000, idempotencyKey := some "k1" } =
    ({ success := true,
       transaction := some { id := 7, payerId := "x", payeeId := "y", amount := 30000,
                             currency := .USD, status := .failed,
                             metadata := { idempotencyKey := some "k1" } } },
     storedKeyState) :=
  C10_replay_returns_stored demoConfig { success := true } storedKeyState
    { payerId := "p", payeeId := "q", amount := 50000, idempotencyKey := some "k1" }
    "k1" _ rfl rfl (by decide) rfl

/-- C7 (amended): a request violating any validation rule — non-positive
amount, amount outside the configured (truthy) min/max bounds, equal
payer and payee, or a missing (empty) party id — makes
`processTransaction` return a failure result whose error code is
`TRANSACTION_ERROR` (the message names the violated rule), with no side
effects: the ledger state is returned exactly unchanged.  The code
surfaces no distinct `ValidationError` code, per
`C7_validation_error_code_counterexample`. -/
theorem C7_validation_rejects_without_side_effects (cfg : PaymentServiceConfig)
    (proc : ChargeResult) (st : LedgerState) (req : ProcessTransactionRequest)
    (h : req.amount ≤ 0 ∨ minViolation cfg req.amount ≠ none ∨
         maxViolation cfg req.amount ≠ none ∨ req.payerId = req.payeeId ∨
         req.payerId = "" ∨ req.payeeId = "") :
    ∃ msg, processTransaction cfg proc st req = (txError msg, st) := by
  obtain ⟨msg, hmsg⟩ := validate_error_of cfg req h
  exact ⟨msg, by simp only [processTransaction, hmsg]⟩

/-- Witness for `C7_validation_rejects_without_side_effects`: a request
with `payerId = payeeId` is rejected with no side effects. -/
theorem C7_validation_witness :
    ∃ msg, processTransaction demoConfig { success := true } twoUserState
      { payerId := "p", payeeId := "p", amount := 50000 } =
      (txError msg, twoUserState) :=
  C7_validation_rejects_without_side_effects demoConfig { success := true } twoUserState
    { payerId := "p", payeeId := "p", amount := 50000 }
    (Or.inr (Or.inr (Or.inr (Or.inl rfl))))

/-- Fact: `createTransaction` succeeds on data passing the schema's CHECK
constraints, appending the new row and bumping the id counter. -/
theorem createTransaction_ok {st : LedgerState} {d : NewTransactionData}
    (h1 : ¬ d.amount ≤ 0) (h2 : ¬ d.payerId = d.payeeId) :
    createTransaction st d =
      (.ok { id := st.nextId, payerId := d.payerId, payeeId := d.payeeId,
             amount := d.amount, currency := d.currency, status := d.status,
             paymentMethod := d.paymentMethod, processorReference := none,
             metadata := d.metadata },
       { st with
         transactions := st.transactions ++
           [{ id := st.nextId, payerId := d.payerId, payeeId := d.payeeId,
              amount := d.amount, currency := d.currency, status := d.status,
              paymentMethod := d.paymentMethod, processorReference := none,
              metadata := d.metadata }],
         nextId := st.nextId + 1 }) := by
  unfold createTransaction
  rw [if_neg h1, if_neg h2]

/-- Lemma `updateTransaction_append` restated on an anonymous-constructor state,
the shape the claim proofs rewrite with. -/
theorem updateTransaction_append2 {acc : List Account} {l : List Transaction}
    {tx : Transaction} {m n : Nat} {u : TransactionUpdates}
    (hid : tx.id = n) (hl : ∀ t ∈ l, t.id ≠ n) :
    updateTransaction ⟨acc, l ++ [tx], m⟩ n u =
      (.ok (applyUpdates tx u), ⟨acc, l ++ [applyUpdates tx u], m⟩) := by
  subst hid
  exact updateTransaction_append ⟨acc, l ++ [tx], m⟩ l tx u rfl hl

/-- C6: for a validated, non-replayed request that requires external
processing and carries a (truthy) payment method: a failed charge makes
`processTransaction` return the `PAYMENT_FAILED` error, mark the created
transaction (id `st.nextId`) `failed`, and leave the accounts table
untouched; a successful charge leaves `charge.reference` attached as the
stored transaction's `processorReference` (whatever the later balance
shift does). -/
theorem C6_processor_gate (cfg : PaymentServiceConfig) (proc : ChargeResult)
    (st : LedgerState) (req : ProcessTransactionRequest)
    (hWF : st.WF)
    (hval : validateTransaction cfg req = .ok ())
    (hdup : duplicateLookup st req = none)
    (hproc : requiresPaymentProcessing req.payerId req.payeeId = true)
    (hpm : strTruthy req.paymentMethod = true) :
    (proc.success = false →
      (processTransaction cfg proc st req).1 =
        { success := false,
          error := some { code := "PAYMENT_FAILED",
                          message := proc.error.getD "Payment processing failed" } } ∧
      (getTransaction (processTransaction cfg proc st req).2 st.nextId).map
        Transaction.status = some .failed ∧
      (processTransaction cfg proc st req).2.accounts = st.accounts) ∧
    (proc.success = true →
      (getTransaction (processTransaction cfg proc st req).2 st.nextId).map
        Transaction.processorReference = some proc.reference) := by
  obtain ⟨hpos, hnepp, -, -⟩ := validate_ok_fields cfg req hval
  have hfresh : ∀ t ∈ st.transactions, t.id ≠ st.nextId :=
    fun t ht => Nat.ne_of_lt (hWF t ht)
  constructor
  · intro hc
    simp only [processTransaction, hval, hdup, createTransaction_ok, not_le, hpos, hnepp,
      not_false_iff, hproc, hpm, Bool.and_self, if_true, updateTransactionStatus,
      hc, Bool.not_false]
    rw [updateTransaction_append2 rfl hfresh]
    simp only [applyUpdates]
    rw [updateTransaction_append2 rfl hfresh]
    simp only [applyUpdates]
    refine ⟨trivial, ?_, trivial⟩
    unfold getTransaction
    rw [find_id_append st.transactions _ st.nextId hfresh rfl]
    rfl
  · intro hc
    simp only [processTransaction, hval, hdup, createTransaction_ok, not_le, hpos, hnepp,
      not_false_iff, hproc, hpm, Bool.and_self, if_true, updateTransactionStatus, hc,
      Bool.not_true, Bool.false_eq_true, if_false]
    rw [updateTransaction_append2 rfl hfresh]
    simp only [applyUpdates]
    rw [updateTransaction_append2 rfl hfresh]
    simp only [applyUpdates]
    unfold settleTransaction
    split
    · rename_i msg st4 heq
      have htx := congrArg (fun x => x.2.transactions) heq
      simp only at htx
      rw [updateBalances_transactions] at htx
      obtain ⟨acc4, txs4, n4⟩ := st4
      simp only at htx
      subst htx
      unfold getTransaction
      rw [find_id_append st.transactions _ st.nextId hfresh rfl]
      rfl
    · rename_i u st4 heq
      have htx := congrArg (fun x => x.2.transactions) heq
      simp only at htx
      rw [updateBalances_transactions] at htx
      obtain ⟨acc4, txs4, n4⟩ := st4
      simp only at htx
      subst htx
      simp only [updateTransactionStatus]
      rw [updateTransaction_append2 rfl hfresh]
      simp only [applyUpdates]
      unfold getTransaction
      rw [find_id_append st.transactions _ st.nextId hfresh rfl]
      rfl

/-- Witness for `C6_processor_gate`: a declined charge on the `railState`
scenario yields `PAYMENT_FAILED`, a `failed` transaction and untouched
accounts; an approved charge leaves its reference on the stored
transaction. -/
theorem C6_processor_gate_witness :
    ((processTransaction demoConfig { success := false, error := some "card declined" }
        railState railRequest).1 =
      { success := false,
        error := some { code := "PAYMENT_FAILED", message := "card declined" } } ∧
     (getTransaction (processTransaction demoConfig
        { success := false, error := some "card declined" } railState railRequest).2
        railState.nextId).map Transaction.status = some .failed ∧
     (processTransaction demoConfig { success := false, error := some "card declined" }
        railState railRequest).2.accounts = railState.accounts) ∧
    (getTransaction (processTransaction demoConfig
        { success := true, reference := some "ch_9" } railState railRequest).2
        railState.nextId).map Transaction.processorReference = some (some "ch_9") := by
  constructor
  · exact (C6_processor_gate demoConfig { success := false, error := some "card declined" }
      railState railRequest (by decide) rfl rfl (by decide) (by decide)).1 rfl
  · exact (C6_processor_gate demoConfig { success := true, reference := some "ch_9" }
      railState railRequest (by decide) rfl rfl (by decide) (by decide)).2 rfl

/-- A ledger holding a `completed` card transaction (`ch_42`) from
`carol` to `dave`, ready to refund. -/
def refundableState : LedgerState :=
  { accounts := [{ ownerId := "carol", balance := 800000, currency := .USD },
                 { ownerId := "dave", balance := 200000, currency := .USD }],
    transactions := [{ id := 0, payerId := "carol", payeeId := "dave", amount := 120000,
                       currency := .USD, status := .completed,
                       paymentMethod := some "credit_card",
                       processorReference := some "ch_42" }],
    nextId := 1 }

/-- C8: refunding a `completed` original that carries a (truthy)
`processorReference` when the Processor Gateway refund call fails:
`processRefund` returns the `REFUND_FAILED` error, the newly created
refund transaction (id `st.nextId`) is marked `failed`, no account
balance is mutated, and the original transaction is stored unchanged —
in particular still `completed` (hypothesis `hstat`). -/
theorem C8_refund_processor_failure (cfg : PaymentServiceConfig)
    (refundOutcome : RefundResult) (st : LedgerState) (req : RefundRequest)
    (orig : Transaction)
    (hWF : st.WF)
    (hre : cfg.refundsEnabled = true)
    (horig : getTransaction st req.transactionId = some orig)
    (hstat : orig.status = .completed)
    (href : strTruthy orig.processorReference = true)
    (hra : ¬ refundAmount req.amount orig.amount ≤ 0)
    (hpp : orig.payerId ≠ orig.payeeId)
    (hfail : refundOutcome.success = false) :
    (processRefund cfg refundOutcome st req).1 =
      { success := false,
        error := some { code := "REFUND_FAILED",
                        message := refundOutcome.error.getD "Refund processing failed" } } ∧
    (getTransaction (processRefund cfg refundOutcome st req).2 st.nextId).map
      Transaction.status = some .failed ∧
    (processRefund cfg refundOutcome st req).2.accounts = st.accounts ∧
    getTransaction (processRefund cfg refundOutcome st req).2 req.transactionId =
      some orig := by
  have hfresh : ∀ t ∈ st.transactions, t.id ≠ st.nextId :=
    fun t ht => Nat.ne_of_lt (hWF t ht)
  simp only [processRefund, hre, Bool.not_true, Bool.false_eq_true, if_false, horig,
    hstat, ne_eq, not_true_eq_false, createTransaction_ok, not_le, hra, Ne.symm hpp,
    not_false_iff, href, hfail, Bool.not_false, Bool.and_self, if_true,
    updateTransactionStatus]
  rw [updateTransaction_append2 rfl hfresh]
  simp only [applyUpdates]
  refine ⟨trivial, ?_, trivial, ?_⟩
  · unfold getTransaction
    rw [find_id_append st.transactions _ st.nextId hfresh rfl]
    rfl
  · unfold getTransaction at horig ⊢
    rw [List.find?_append, horig]
    rfl

/-- Witness for `C8_refund_processor_failure`: a failing rail refund of
the stored `ch_42` transaction. -/
theorem C8_refund_processor_failure_witness :
    (processRefund demoConfig { success := false, error := some "rail down" }
        refundableState { transactionId := 0 }).1 =
      { success := false,
        error := some { code := "REFUND_FAILED", message := "rail down" } } ∧
    (getTransaction (processRefund demoConfig { success := false, error := some "rail down" }
        refundableState { transactionId := 0 }).2 refundableState.nextId).map
      Transaction.status = some .failed ∧
    (processRefund demoConfig { success := false, error := some "rail down" }
        refundableState { transactionId := 0 }).2.accounts = refundableState.accounts ∧
    getTransaction (processRefund demoConfig { success := false, error := some "rail down" }
        refundableState { transactionId := 0 }).2 0 =
      some { id := 0, payerId := "carol", payeeId := "dave", amount := 120000,
             currency := .USD, status := .completed,
             paymentMethod := some "credit_card",
             processorReference := some "ch_42" } :=
  C8_refund_processor_failure demoConfig { success := false, error := some "rail down" }
    refundableState { transactionId := 0 }
    { id := 0, payerId := "carol", payeeId := "dave", amount := 120000,
      currency := .USD, status := .completed,
      paymentMethod := some "credit_card", processorReference := some "ch_42" }
    (by decide) rfl rfl rfl (by decide) (by decide) (by decide) rfl

/-- Fact: `updateBalances` only replaces the accounts table of its input state. -/
theorem updateBalances_state (st : LedgerState) (p q : String) (a : ℤ) (c : Currency) :
    ∃ acc', (updateBalances st p q a c).2 = { st with accounts := acc' } := by
  simp only [updateBalances]
  split
  · exact ⟨_, rfl⟩
  · split <;> exact ⟨_, rfl⟩

/-- What a *successful* `settleTransaction` on a freshly-appended row
must look like: the appended row is marked `completed` and only the
accounts table changed besides. -/
theorem settle_of_run {acc : List Account} {l : List Transaction} {tx : Transaction}
    {m n : Nat} {cur : Currency} {p q : String} {a : ℤ} {res : TransactionResult}
    {stF : LedgerState}
    (hid : tx.id = n) (hl : ∀ t ∈ l, t.id ≠ n)
    (hrun : settleTransaction ⟨acc, l ++ [tx], m⟩ p q a n cur = (res, stF))
    (hsucc : res.success = true) :
    res = { success := true,
            transaction := some (applyUpdates tx { status := some .completed }) } ∧
    ∃ acc', stF = ⟨acc', l ++ [applyUpdates tx { status := some .completed }], m⟩ := by
  unfold settleTransaction at hrun
  split at hrun
  · rename_i msg st4 heq
    injection hrun with h1 h2
    subst h1
    simp [txError] at hsucc
  · rename_i u st4 heq
    obtain ⟨acc', hacc⟩ := updateBalances_state ⟨acc, l ++ [tx], m⟩ p q a cur
    rw [heq] at hacc
    simp only at hacc
    subst hacc
    simp only [updateTransactionStatus] at hrun
    rw [updateTransaction_append2 hid hl] at hrun
    injection hrun with h1 h2
    exact ⟨h1.symm, acc', h2.symm⟩

/-- A later call replays a row whose idempotency key matches, when no
earlier row carries the key. -/
theorem replay_after_append {acc : List Account} {l : List Transaction}
    {tx : Transaction} {m : Nat} (cfg : PaymentServiceConfig) (proc2 : ChargeResult)
    (req : ProcessTransactionRequest) (k : String)
    (hval : validateTransaction cfg req = .ok ())
    (hkey : req.idempotencyKey = some k) (hne : k ≠ "")
    (hnone : l.find? (fun t => t.metadata.idempotencyKey == some k) = none)
    (hktx : tx.metadata.idempotencyKey = some k) :
    processTransaction cfg proc2 ⟨acc, l ++ [tx], m⟩ req =
      ({ success := true, transaction := some tx }, ⟨acc, l ++ [tx], m⟩) := by
  have hfound : findByIdempotencyKey ⟨acc, l ++ [tx], m⟩ k = some tx := by
    unfold findByIdempotencyKey
    simp only
    rw [List.find?_append, hnone]
    simp [List.find?, hktx]
  exact replay_of_found cfg proc2 ⟨acc, l ++ [tx], m⟩ req k tx hval hkey hne hfound

/-- C3 (amended): for every *non-empty* idempotencyKey `k`, if a call to
`processTransaction` tagged `k` returns success, then a second call with
the same request (under any processor behaviour) returns success with
the *same* transaction, and the ledger state is completely unchanged: no
new row is created, no balance changes, and the processor outcome of the
second call is irrelevant (it is universally quantified) — i.e. no
re-processing happens.  The non-emptiness proviso is forced by
`C3_empty_key_counterexample`. -/
theorem C3_idempotent_replay (cfg : PaymentServiceConfig) (proc1 : ChargeResult)
    (st : LedgerState) (req : ProcessTransactionRequest) (k : String)
    (res1 : TransactionResult) (st1 : LedgerState)
    (hWF : st.WF)
    (hkey : req.idempotencyKey = some k) (hne : k ≠ "")
    (hrun : processTransaction cfg proc1 st req = (res1, st1))
    (hsucc : res1.success = true) :
    ∃ t, res1.transaction = some t ∧
      ∀ proc2 : ChargeResult,
        processTransaction cfg proc2 st1 req =
          ({ success := true, transaction := some t }, st1) := by
  cases hval : validateTransaction cfg req with
  | error msg =>
    simp only [processTransaction, hval] at hrun
    injection hrun with h1 h2
    subst h1
    simp [txError] at hsucc
  | ok u0 =>
    obtain ⟨⟩ := u0
    cases hdup : duplicateLookup st req with
    | some existing =>
      simp only [processTransaction, hval, hdup] at hrun
      injection hrun with h1 h2
      subst h1 h2
      exact ⟨existing, rfl, fun proc2 => by
        simp only [processTransaction, hval, hdup]⟩
    | none =>
      obtain ⟨hpos, hnepp, -, -⟩ := validate_ok_fields cfg req hval
      have hfresh : ∀ t ∈ st.transactions, t.id ≠ st.nextId :=
        fun t ht => Nat.ne_of_lt (hWF t ht)
      have hnone : st.transactions.find?
          (fun t => t.metadata.idempotencyKey == some k) = none := by
        unfold duplicateLookup at hdup
        rw [hkey] at hdup
        simp only [hne, if_false, if_neg] at hdup
        exact hdup
      simp only [processTransaction, hval, hdup, createTransaction_ok, not_le, hpos,
        hnepp, not_false_iff, updateTransactionStatus] at hrun
      split at hrun
      · rw [updateTransaction_append2 rfl hfresh] at hrun
        simp only [applyUpdates] at hrun
        split at hrun
        · rw [updateTransaction_append2 rfl hfresh] at hrun
          simp only [applyUpdates] at hrun
          injection hrun with h1 h2
          subst h1
          simp at hsucc
        · rw [updateTransaction_append2 rfl hfresh] at hrun
          simp only [applyUpdates] at hrun
          obtain ⟨hres, acc', hstF⟩ := settle_of_run rfl hfresh hrun hsucc
          subst hres hstF
          refine ⟨_, rfl, fun proc2 => ?_⟩
          exact replay_after_append cfg proc2 req k hval hkey hne hnone hkey
      · obtain ⟨hres, acc', hstF⟩ := settle_of_run rfl hfresh hrun hsucc
        subst hres hstF
        refine ⟨_, rfl, fun proc2 => ?_⟩
        exact replay_after_append cfg proc2 req k hval hkey hne hnone hkey

/-- The transfer request tagged with the (non-empty) idempotency key
`key1`, used in the C3 witness. -/
def keyedRequest : ProcessTransactionRequest :=
  { payerId := "alice", payeeId := "bob", amount := 100000,
    idempotencyKey := some "key1" }

/-- Witness for `C3_idempotent_replay`: after the keyed transfer
succeeds, every second call (any processor outcome) replays the same
transaction and the state stays put. -/
theorem C3_idempotent_replay_witness :
    ∃ t, (processTransaction demoConfig { success := true } twoUserState
        keyedRequest).1.transaction = some t ∧
      ∀ proc2 : ChargeResult,
        processTransaction demoConfig proc2
            (processTransaction demoConfig { success := true } twoUserState
              keyedRequest).2 keyedRequest =
          ({ success := true, transaction := some t },
           (processTransaction demoConfig { success := true } twoUserState
             keyedRequest).2) :=
  C3_idempotent_replay demoConfig { success := true } twoUserState keyedRequest "key1"
    (processTransaction demoConfig { success := true } twoUserState keyedRequest).1
    (processTransaction demoConfig { success := true } twoUserState keyedRequest).2
    (by decide) rfl (by decide) rfl (by decide)

/-- Two funded peer accounts with symbolic balances `p` and `q`. -/
def pairState (p q : ℤ) : LedgerState :=
  { accounts := [{ ownerId := "alice", balance := p, currency := .USD },
                 { ownerId := "bob", balance := q, currency := .USD }] }

/-- A plain internal transfer of symbolic amount `a` from `alice` to
`bob`. -/
def pairRequest (a : ℤ) : ProcessTransactionRequest :=
  { payerId := "alice", payeeId := "bob", amount := a }

/-- C4 (amended): for any starting balances `p ≥ a > 0`, `q ≥ 0`, after
a completed internal transfer of `a` is refunded in full, both parties'
balances are restored exactly (`alice` back to `p`, `bob` back to `q`),
exactly two terminal records remain — the original in `refunded`, the
refund in `completed` with payer and payee swapped and the original
amount — and the refund references the original via
`metadata.originalTransactionId`.  The original, however, carries *no*
reference back to the refund (its `originalTransactionId` is `none`),
which is the single correction forced by
`C4_original_lacks_refund_reference`: the spec's "both records
referencing each other" holds only in the refund-to-original
direction. -/
theorem C4_full_refund_restores (p q a : ℤ) (ha : 0 < a) (hpa : a ≤ p) (hq : 0 ≤ q) :
    (processTransaction demoConfig { success := true } (pairState p q)
        (pairRequest a)).1.success = true ∧
    (processRefund demoConfig { success := true }
        (processTransaction demoConfig { success := true } (pairState p q)
          (pairRequest a)).2 { transactionId := 0 }).1.success = true ∧
    accountBalance (processRefund demoConfig { success := true }
        (processTransaction demoConfig { success := true } (pairState p q)
          (pairRequest a)).2 { transactionId := 0 }).2 "alice" .USD = some p ∧
    accountBalance (processRefund demoConfig { success := true }
        (processTransaction demoConfig { success := true } (pairState p q)
          (pairRequest a)).2 { transactionId := 0 }).2 "bob" .USD = some q ∧
    (processRefund demoConfig { success := true }
        (processTransaction demoConfig { success := true } (pairState p q)
          (pairRequest a)).2 { transactionId := 0 }).2.transactions.length = 2 ∧
    (getTransaction (processRefund demoConfig { success := true }
        (processTransaction demoConfig { success := true } (pairState p q)
          (pairRequest a)).2 { transactionId := 0 }).2 0).map
      Transaction.status = some .refunded ∧
    (getTransaction (processRefund demoConfig { success := true }
        (processTransaction demoConfig { success := true } (pairState p q)
          (pairRequest a)).2 { transactionId := 0 }).2 1).map
      Transaction.status = some .completed ∧
    (getTransaction (processRefund demoConfig { success := true }
        (processTransaction demoConfig { success := true } (pairState p q)
          (pairRequest a)).2 { transactionId := 0 }).2 1).map
      Transaction.payerId = some "bob" ∧
    (getTransaction (processRefund demoConfig { success := true }
        (processTransaction demoConfig { success := true } (pairState p q)
          (pairRequest a)).2 { transactionId := 0 }).2 1).map
      Transaction.payeeId = some "alice" ∧
    (getTransaction (processRefund demoConfig { success := true }
        (processTransaction demoConfig { success := true } (pairState p q)
          (pairRequest a)).2 { transactionId := 0 }).2 1).map
      Transaction.amount = some a ∧
    (getTransaction (processRefund demoConfig { success := true }
        (processTransaction demoConfig { success := true } (pairState p q)
          (pairRequest a)).2 { transactionId := 0 }).2 1).map
      (fun t => t.metadata.originalTransactionId) = some (some 0) ∧
    (getTransaction (processRefund demoConfig { success := true }
        (processTransaction demoConfig { success := true } (pairState p q)
          (pairRequest a)).2 { transactionId := 0 }).2 0).map
      (fun t => t.metadata.originalTransactionId) = some none := by
  have hnle : ¬ a ≤ 0 := not_le.mpr ha
  have hd1 : ¬ p + -a < 0 := by omega
  have hc1 : ¬ q + a < 0 := by omega
  have hd2 : ¬ p < a := by omega
  have hc2 : ¬ q < -a := by omega
  have hc3 : ¬ p + -a + a < 0 := by omega
  have hc4 : ¬ p - a + a < 0 := by omega
  have hrun1 : processTransaction demoConfig { success := true } (pairState p q)
      (pairRequest a) =
      ({ success := true,
         transaction := some { id := 0, payerId := "alice", payeeId := "bob",
                               amount := a, currency := .USD, status := .completed } },
       { accounts := [{ ownerId := "alice", balance := p + -a, currency := .USD },
                      { ownerId := "bob", balance := q + a, currency := .USD }],
         transactions := [{ id := 0, payerId := "alice", payeeId := "bob",
                            amount := a, currency := .USD, status := .completed }],
         nextId := 1 }) := by
    simp [processTransaction, validateTransaction, minViolation, maxViolation,
      numTruthy, demoConfig, pairState, pairRequest, duplicateLookup, hnle,
      createTransaction_ok, requiresPaymentProcessing, strTruthy,
      SELF_ENTITY, settleTransaction, updateBalances, ensureAccount, sqlShiftBalance,
      updateTransactionStatus, applyUpdates, updateTransaction, getTransaction, hd1,
      hc1, hd2, hc2, hc3, hc4]
  have h1 : ¬ q + a < a := by omega
  have h2 : ¬ q + a + -a < 0 := by omega
  have h3 : ¬ q < 0 := by omega
  have h5 : ¬ p < 0 := by omega
  have h6 : ¬ p + -a < -a := by omega
  have hrun2 : processRefund demoConfig { success := true }
      { accounts := [{ ownerId := "alice", balance := p + -a, currency := .USD },
                     { ownerId := "bob", balance := q + a, currency := .USD }],
        transactions := [{ id := 0, payerId := "alice", payeeId := "bob",
                           amount := a, currency := .USD, status := .completed }],
        nextId := 1 }
      { transactionId := 0 } =
      ({ success := true,
         transaction := some { id := 1, payerId := "bob", payeeId := "alice",
                               amount := a, currency := .USD, status := .completed,
                               metadata := { description := some (refundDescription 0),
                                             originalTransactionId := some 0 } } },
       { accounts := [{ ownerId := "alice", balance := p, currency := .USD },
                      { ownerId := "bob", balance := q, currency := .USD }],
         transactions := [{ id := 0, payerId := "alice", payeeId := "bob",
                            amount := a, currency := .USD, status := .refunded },
                          { id := 1, payerId := "bob", payeeId := "alice",
                            amount := a, currency := .USD, status := .completed,
                            metadata := { description := some (refundDescription 0),
                                          originalTransactionId := some 0 } }],
         nextId := 2 }) := by
    simp [processRefund, getTransaction, refundAmount, createTransaction_ok, hnle,
      strTruthy, updateBalances, ensureAccount, sqlShiftBalance, SELF_ENTITY, demoConfig,
      updateTransactionStatus, updateTransaction, applyUpdates, h1, h2, h3, hc3, h5, h6]
  rw [hrun1]
  simp only [hrun2]
  simp [getTransaction, accountBalance, List.find?]

/-- Witness for `C4_full_refund_restores`: the 100.00/50.00 accounts with
a 10.00 transfer-and-full-refund round trip. -/
theorem C4_full_refund_restores_witness :
    (processTransaction demoConfig { success := true } (pairState 1000000 500000)
        (pairRequest 100000)).1.success = true ∧
    (processRefund demoConfig { success := true }
        (processTransaction demoConfig { success := true } (pairState 1000000 500000)
          (pairRequest 100000)).2 { transactionId := 0 }).1.success = true ∧
    accountBalance (processRefund demoConfig { success := true }
        (processTransaction demoConfig { success := true } (pairState 1000000 500000)
          (pairRequest 100000)).2 { transactionId := 0 }).2 "alice" .USD = some 1000000 ∧
    accountBalance (processRefund demoConfig { success := true }
        (processTransaction demoConfig { success := true } (pairState 1000000 500000)
          (pairRequest 100000)).2 { transactionId := 0 }).2 "bob" .USD = some 500000 ∧
    (processRefund demoConfig { success := true }
        (processTransaction demoConfig { success := true } (pairState 1000000 500000)
          (pairRequest 100000)).2 { transactionId := 0 }).2.transactions.length = 2 ∧
    (getTransaction (processRefund demoConfig { success := true }
        (processTransaction demoConfig { success := true } (pairState 1000000 500000)
          (pairRequest 100000)).2 { transactionId := 0 }).2 0).map
      Transaction.status = some .refunded ∧
    (getTransaction (processRefund demoConfig { success := true }
        (processTransaction demoConfig { success := true } (pairState 1000000 500000)
          (pairRequest 100000)).2 { transactionId := 0 }).2 1).map
      Transaction.status = some .completed ∧
    (getTransaction (processRefund demoConfig { success := true }
        (processTransaction demoConfig { success := true } (pairState 1000000 500000)
          (pairRequest 100000)).2 { transactionId := 0 }).2 1).map
      Transaction.payerId = some "bob" ∧
    (getTransaction (processRefund demoConfig { success := true }
        (processTransaction demoConfig { success := true } (pairState 1000000 500000)
          (pairRequest 100000)).2 { transactionId := 0 }).2 1).map
      Transaction.payeeId = some "alice" ∧
    (getTransaction (processRefund demoConfig { success := true }
        (processTransaction demoConfig { success := true } (pairState 1000000 500000)
          (pairRequest 100000)).2 { transactionId := 0 }).2 1).map
      Transaction.amount = some 100000 ∧
    (getTransaction (processRefund demoConfig { success := true }
        (processTransaction demoConfig { success := true } (pairState 1000000 500000)
          (pairRequest 100000)).2 { transactionId := 0 }).2 1).map
      (fun t => t.metadata.originalTransactionId) = some (some 0) ∧
    (getTransaction (processRefund demoConfig { success := true }
        (processTransaction demoConfig { success := true } (pairState 1000000 500000)
          (pairRequest 100000)).2 { transactionId := 0 }).2 0).map
      (fun t => t.metadata.originalTransactionId) = some none :=
  C4_full_refund_restores 1000000 500000 100000 (by decide) (by decide) (by decide)
